import Mathlib

/-!
Verification of the image-normalization core of OpenCiviWiki's
`project/accounts/models.py` (`Profile.resize_profile_image`,
`Profile.save`, `Profile.profile_image_url`,
`Profile.profile_image_thumb_url`, and the imagekit-backed
`profile_image_thumb` derived-asset cache).

The Python source delegates the geometric fit-crop to PIL's
`ImageOps.fit` and the thumbnail cache to django-imagekit; neither
library's code is part of this repository, so those two pieces are
modelled from the specification (each such definition carries a
doc comment starting `Modelled from the spec:`).  Everything else —
the mode test `mode not in ("L", "RGB")`, the `split()[3]` alpha
extraction, the white-background paste, the JPEG re-encode keeping
the original file name, the unconditional resize inside `save`, and
the placeholder-URL fallbacks — is translated directly from the
source file.
-/

namespace CiviWiki

/-- PIL color modes relevant to the pipeline.  `L` is 8-bit
grayscale, `LA` grayscale with alpha, `P` palette, `RGB` true color,
`RGBA` true color with alpha. -/
inductive ColorMode where
  | L
  | LA
  | P
  | RGB
  | RGBA
deriving DecidableEq, Repr

/-- One pixel, as up to four 8-bit channels.  For mode `L` only `r`
is meaningful (the gray level); for `RGB` the channels `r`, `g`, `b`;
for `RGBA` all four; for `LA` the pair `r` (gray) and `a`. -/
structure Pix where
  r : Nat
  g : Nat
  b : Nat
  a : Nat
deriving DecidableEq, Repr

/-- A decoded raster image: dimensions, color mode, and a total pixel
function (only the values at coordinates inside the dimensions are
meaningful). -/
structure PixelBuffer where
  width : Nat
  height : Nat
  mode : ColorMode
  pix : Nat → Nat → Pix

/-- Number of channel bands `Image.split` yields for each mode
(PIL: one band per channel letter of the mode). -/
def ColorMode.bands : ColorMode → Nat
  | .L => 1
  | .LA => 2
  | .P => 1
  | .RGB => 3
  | .RGBA => 4

/-- `Image.split` as used at `models.py:155`
(`profile_image.split()[3]`): the list of single-channel band
extractors of the buffer, one per channel of its mode. -/
def PixelBuffer.split (img : PixelBuffer) : List (Nat → Nat → Nat) :=
  match img.mode with
  | .L => [fun x y => (img.pix x y).r]
  | .LA => [fun x y => (img.pix x y).r, fun x y => (img.pix x y).a]
  | .P => [fun x y => (img.pix x y).r]
  | .RGB => [fun x y => (img.pix x y).r, fun x y => (img.pix x y).g,
             fun x y => (img.pix x y).b]
  | .RGBA => [fun x y => (img.pix x y).r, fun x y => (img.pix x y).g,
              fun x y => (img.pix x y).b, fun x y => (img.pix x y).a]

/-- Errors the pipeline can surface.  `invalidImage` is the
degenerate-dimension rejection of spec §4.2; `indexError` models the
Python `IndexError` raised by `split()[3]` on a buffer with fewer
than four bands. -/
inductive ImgError where
  | invalidImage
  | indexError
deriving DecidableEq, Repr

/-- Round a rational to the nearest natural number (half away from
zero on the nonnegative inputs that occur here): `round` of Mathlib,
truncated to `Nat`. -/
def ratRoundNat (q : ℚ) : Nat := (round q).toNat

/-- Modelled from the spec: step 1 of §4.2 for PIL's `ImageOps.fit`
(not in this repository) — the cover-fit scale factor
`s = max(tw / w, th / h)`. -/
def fitScale (w h tw th : Nat) : ℚ :=
  max ((tw : ℚ) / (w : ℚ)) ((th : ℚ) / (h : ℚ))

/-- Modelled from the spec: step 2 of §4.2 — the dimensions after
resizing by the scale factor, `round(w*s) × round(h*s)`. -/
def fitResizedDims (w h tw th : Nat) : Nat × Nat :=
  (ratRoundNat ((w : ℚ) * fitScale w h tw th),
   ratRoundNat ((h : ℚ) * fitScale w h tw th))

/-- Modelled from the spec: step 3 of §4.2 — the center-crop origin
`((resized_w - tw)/2, (resized_h - th)/2)`, i.e. centering fraction
(0.5, 0.5) on both axes. -/
def fitCropOrigin (w h tw th : Nat) : Nat × Nat :=
  (((fitResizedDims w h tw th).1 - tw) / 2,
   ((fitResizedDims w h tw th).2 - th) / 2)

/-- Modelled from the spec: the resampling step of §4.2 step 2 (the
library's antialias filter, abstracted as point sampling at the
pre-image of each output coordinate).  At scale 1 this is the
identity on pixel content, which is the only pixel-level fact §4.2
asserts about the filter ("steps 1–3 are a no-op"). -/
def resizeBy (img : PixelBuffer) (s : ℚ) (rw rh : Nat) : PixelBuffer :=
  { width := rw
    height := rh
    mode := img.mode
    pix := fun x y => img.pix (ratRoundNat ((x : ℚ) / s)) (ratRoundNat ((y : ℚ) / s)) }

/-- Crop a buffer: origin `(cx, cy)`, output size `(cw, ch)`. -/
def cropAt (img : PixelBuffer) (cx cy cw ch : Nat) : PixelBuffer :=
  { width := cw
    height := ch
    mode := img.mode
    pix := fun x y => img.pix (x + cx) (y + cy) }

/-- The fit-crop of a positive-dimension buffer: resize by the cover
scale to `round(w*s) × round(h*s)`, then center-crop to `(tw, th)`.
The color mode is preserved. -/
def fitOut (img : PixelBuffer) (tw th : Nat) : PixelBuffer :=
  cropAt
    (resizeBy img (fitScale img.width img.height tw th)
      (fitResizedDims img.width img.height tw th).1
      (fitResizedDims img.width img.height tw th).2)
    (fitCropOrigin img.width img.height tw th).1
    (fitCropOrigin img.width img.height tw th).2
    tw th

/-- Modelled from the spec: PIL's `ImageOps.fit(img, (tw, th),
ANTIALIAS, centering=(0.5, 0.5))` (`models.py:141-146`; the fit
algorithm itself is library code, reproduced here from §4.2):
reject zero-dimension sources with `InvalidImageError` before any
resize, otherwise scale by `s = max(tw/w, th/h)`, resize to
`round(w*s) × round(h*s)`, and center-crop to exactly `(tw, th)`. -/
def ImageOps_fit (img : PixelBuffer) (tw th : Nat) :
    Except ImgError PixelBuffer :=
  if img.width = 0 ∨ img.height = 0 then
    .error .invalidImage
  else
    .ok (fitOut img tw th)

/-- One channel of PIL's masked paste: the destination canvas value
`c1` blended toward the pasted value `c2` by mask weight `m` in
0..255 (`m = 0` keeps the canvas, `m = 255` takes the paste). -/
def blendChannel (c1 c2 m : Nat) : Nat :=
  (c2 * m + c1 * (255 - m)) / 255

/-- `Image.new("RGB", size, color)`: an RGB canvas filled with a
solid color (`models.py:150-154`). -/
def Image_new_RGB (w h : Nat) (color : Pix) : PixelBuffer :=
  { width := w, height := h, mode := .RGB, pix := fun _ _ => color }

/-- `canvas.paste(img, mask=m)` (`models.py:155`): per-pixel blend of
the pasted image over the canvas, weighted by the single-channel
mask; the result keeps the canvas's RGB mode, with a fully opaque
alpha channel. -/
def pasteWithMask (canvas img : PixelBuffer) (m : Nat → Nat → Nat) :
    PixelBuffer :=
  { width := canvas.width
    height := canvas.height
    mode := canvas.mode
    pix := fun x y =>
      { r := blendChannel (canvas.pix x y).r (img.pix x y).r (m x y)
        g := blendChannel (canvas.pix x y).g (img.pix x y).g (m x y)
        b := blendChannel (canvas.pix x y).b (img.pix x y).b (m x y)
        a := 255 } }

/-- The normalization configuration (`settings.PROFILE_IMG`): target
size, white background color, JPEG quality. -/
structure NormSpec where
  targetW : Nat
  targetH : Nat
  bg : Pix
  quality : Nat

/-- The deployed configuration of spec §6: 500×500 target, opaque
white background, JPEG quality 90. -/
def spec500 : NormSpec :=
  { targetW := 500, targetH := 500, bg := ⟨255, 255, 255, 255⟩, quality := 90 }

/-- The pixel-transformation body of `Profile.resize_profile_image`
(`models.py:138-156`): fit-crop to the target size, then, when the
mode is neither `"L"` nor `"RGB"`, paste over a white RGB canvas
using band 3 of `split()` as the mask (an `IndexError` when the
buffer has fewer than four bands). -/
def normalizeBuffer (sp : NormSpec) (img : PixelBuffer) :
    Except ImgError PixelBuffer :=
  match ImageOps_fit img sp.targetW sp.targetH with
  | .error e => .error e
  | .ok fitted =>
      if fitted.mode = .L ∨ fitted.mode = .RGB then
        .ok fitted
      else
        match (PixelBuffer.split fitted)[3]? with
        | none => .error .indexError
        | some mask =>
            .ok (pasteWithMask
              (Image_new_RGB sp.targetW sp.targetH sp.bg) fitted mask)

/-- `PIL.Image.tell()` (`models.py:167`): the current frame index of
the image, which is 0 for the single-frame images produced here (the
source passes it as the size metadata of the uploaded file). -/
def Image_tell (_img : PixelBuffer) : Nat := 0

/-- A stored image file as the pipeline sees it: its storage name,
declared content type, decoded pixel content (`Image.open` on the
stored bytes yields `content`), and size metadata. -/
structure ImageFile where
  name : String
  contentType : String
  content : PixelBuffer
  size : Nat

/-- `Profile.resize_profile_image` (`models.py:122-169`): open the
current `profile_image`, fit-crop it to the configured size, flatten
alpha onto the white background, and replace `profile_image` with an
in-memory JPEG upload that keeps the original file name
(`self.profile_image.name`), content type `"image/jpeg"`, and size
metadata `profile_image.tell()`. -/
def resize_profile_image (sp : NormSpec) (f : ImageFile) :
    Except ImgError ImageFile :=
  match normalizeBuffer sp f.content with
  | .error e => .error e
  | .ok out =>
      .ok { name := f.name
            contentType := "image/jpeg"
            content := out
            size := Image_tell out }

/-- The slice of a `Profile` row the image pipeline touches: the
optional `profile_image` field. -/
structure Profile where
  profile_image : Option ImageFile

/-- Python truthiness of a Django `ImageField` value
(`if self.profile_image:`): false when the field is null or its
stored name is empty. -/
def imageTruthy : Option ImageFile → Bool
  | none => false
  | some f => f.name != ""

/-- `Profile.save` (`models.py:112-119`): when `profile_image` is
truthy, run `resize_profile_image` first, then persist the row via
`super().save`.  The persisted row (the `Option Profile` argument
and first component of the state) models the database record visible
to readers; an exception raised by the resize propagates before
`super().save` runs, leaving the persisted row untouched. -/
def Profile_save (sp : NormSpec) (p : Profile) (db : Option Profile) :
    Except ImgError Profile × Option Profile :=
  match p.profile_image with
  | some f =>
      if f.name != "" then
        match resize_profile_image sp f with
        | .error e => (.error e, db)
        | .ok f2 =>
            (.ok { profile_image := some f2 },
             some { profile_image := some f2 })
      else (.ok p, some p)
  | none => (.ok p, some p)

/-- The storage collaborator: `default_storage.exists`. -/
structure Storage where
  lookup : String → Bool

/-- Deployment configuration the URL properties consult:
`settings.MEDIA_ROOT` and the storage URL prefix. -/
structure MediaConfig where
  mediaRoot : String
  mediaUrl : String

/-- The hard-coded placeholder returned by both URL properties
(`models.py:97` and `models.py:110`). -/
def placeholderUrl : String := "/static/img/no_image_md.png"

/-- `os.path.join(settings.MEDIA_ROOT, name)` as used at
`models.py:91-93`. -/
def mediaPath (cfg : MediaConfig) (name : String) : String :=
  cfg.mediaRoot ++ "/" ++ name

/-- The storage URL of a stored file (`FieldFile.url`, delegated to
the storage backend): the media URL prefix followed by the file
name. -/
def fileUrl (cfg : MediaConfig) (name : String) : String :=
  cfg.mediaUrl ++ name

/-- `Profile.profile_image_url` (`models.py:86-97`): if the field is
truthy and the backing bytes exist under `MEDIA_ROOT`, the file's
URL, otherwise the placeholder. -/
def profile_image_url (cfg : MediaConfig) (st : Storage) (p : Profile) :
    String :=
  match p.profile_image with
  | some f =>
      if f.name != "" then
        if st.lookup (mediaPath cfg f.name) then fileUrl cfg f.name
        else placeholderUrl
      else placeholderUrl
  | none => placeholderUrl

/-- Modelled from the spec: the storage name django-imagekit (not in
this repository) gives the cached thumbnail derived from a source
file — a cache path derived from the source name (§4.4: cache keyed
by source identity and derivation spec). -/
def thumbName (f : ImageFile) : String :=
  "CACHE/images/" ++ f.name

/-- `Profile.profile_image_thumb_url` (`models.py:99-110`): same
shape as `profile_image_url` but for the imagekit-managed thumbnail
file; the thumbnail handle is truthy exactly when the source field
is (the handle's name is derived from the source name). -/
def profile_image_thumb_url (cfg : MediaConfig) (st : Storage)
    (p : Profile) : String :=
  match p.profile_image with
  | some f =>
      if f.name != "" then
        if st.lookup (mediaPath cfg (thumbName f)) then
          fileUrl cfg (thumbName f)
        else placeholderUrl
      else placeholderUrl
  | none => placeholderUrl

/-- JPEG-encoded bytes, kept abstract as the encoded buffer plus the
quality parameter (`profile_image.save(tmp, "JPEG", quality=90)`
and the `ImageSpecField` options at `models.py:73-74`). -/
structure JPEGBytes where
  buffer : PixelBuffer
  quality : Nat

/-- `encode_jpeg` of spec §4.1: encode a pixel buffer to JPEG at the
given quality. -/
def encodeJPEG (img : PixelBuffer) (q : Nat) : JPEGBytes :=
  { buffer := img, quality := q }

/-- A normalized source asset as the thumbnail deriver sees it: its
current fingerprint and decoded content (spec §3). -/
structure SourceAsset where
  fingerprint : Nat
  buffer : PixelBuffer

/-- A thumbnail cache entry: encoded bytes plus the source
fingerprint recorded at creation time (spec §3, CacheEntry). -/
structure CacheEntry where
  bytes : JPEGBytes
  fingerprint : Nat

/-- Modelled from the spec: a fresh thumbnail derivation (§4.3; in
the source this is the imagekit machinery behind the
`ImageSpecField` with `ResizeToFill` at `models.py:65-75`, which is
not repository code): decode the normalized source, fit-crop to the
thumbnail size, encode to JPEG at quality 90, and tag the new cache
entry with the source's current fingerprint. -/
def deriveFresh (tw th : Nat) (src : SourceAsset) :
    Except ImgError (JPEGBytes × CacheEntry) :=
  match ImageOps_fit src.buffer tw th with
  | .error e => .error e
  | .ok fitted =>
      .ok (encodeJPEG fitted 90,
           { bytes := encodeJPEG fitted 90, fingerprint := src.fingerprint })

/-- Modelled from the spec: `ThumbnailDeriver.derive` (§4.3/§4.4,
the imagekit cache behind `profile_image_thumb`): serve the cached
entry only when its recorded fingerprint matches the source's
current fingerprint; on miss or staleness, regenerate. -/
def derive (tw th : Nat) (src : SourceAsset) (cached : Option CacheEntry) :
    Except ImgError (JPEGBytes × CacheEntry) :=
  match cached with
  | some e =>
      if e.fingerprint = src.fingerprint then .ok (e.bytes, e)
      else deriveFresh tw th src
  | none => deriveFresh tw th src

/-! Concrete fixtures used by witnesses and counterexamples. -/

/-- A 4000×2000 RGBA source (the concrete scenario of spec §8). -/
def rgbaSrc4000 : PixelBuffer :=
  { width := 4000, height := 2000, mode := .RGBA,
    pix := fun _ _ => ⟨10, 20, 30, 0⟩ }

/-- A 2×2 grayscale-with-alpha (`LA`) source: an alpha-bearing mode
whose `split()` has only two bands. -/
def laImg : PixelBuffer :=
  { width := 2, height := 2, mode := .LA, pix := fun _ _ => ⟨7, 0, 0, 0⟩ }

/-- A 2×2 plain grayscale (`L`) source. -/
def grayImg : PixelBuffer :=
  { width := 2, height := 2, mode := .L, pix := fun _ _ => ⟨5, 0, 0, 255⟩ }

/-- A 2×2 fully transparent RGBA source. -/
def rgbaImg : PixelBuffer :=
  { width := 2, height := 2, mode := .RGBA, pix := fun _ _ => ⟨9, 8, 7, 0⟩ }

/-- A 500×500 RGB source already at the deployed target size. -/
def rgbImg500 : PixelBuffer :=
  { width := 500, height := 500, mode := .RGB,
    pix := fun x y => ⟨x % 256, y % 256, 40, 255⟩ }

/-- A degenerate 0×5 source. -/
def zeroImg : PixelBuffer :=
  { width := 0, height := 5, mode := .RGB, pix := fun _ _ => ⟨0, 0, 0, 255⟩ }

/-- An uploaded profile image file backed by `rgbImg500`. -/
def testFile : ImageFile :=
  { name := "profile_uploads/x.png", contentType := "image/png",
    content := rgbImg500, size := 123 }

/-- An uploaded profile image file backed by the `LA`-mode source,
on which the resize raises. -/
def badFile : ImageFile :=
  { name := "profile_uploads/bad.png", contentType := "image/png",
    content := laImg, size := 5 }

/-- A profile whose current image is `testFile`. -/
def pWithFile : Profile := { profile_image := some testFile }

/-- A profile whose current image is `badFile`. -/
def badProfile : Profile := { profile_image := some badFile }

/-- A concrete deployment configuration for the URL properties. -/
def cfg0 : MediaConfig := { mediaRoot := "/srv/media", mediaUrl := "/media/" }

/-- A storage collaborator on which no path exists. -/
def stAbsent : Storage := { lookup := fun _ => false }

/-- A normalized source asset at fingerprint 2, backed by
`rgbImg500`. -/
def srcAsset : SourceAsset := { fingerprint := 2, buffer := rgbImg500 }

/-- A cache entry recorded at the older fingerprint 1, holding bytes
derived from a different source. -/
def staleEntry : CacheEntry :=
  { bytes := encodeJPEG grayImg 90, fingerprint := 1 }

/-! Helper lemmas shared by the claim theorems. -/

theorem ratRoundNat_natCast (n : Nat) : ratRoundNat (n : ℚ) = n := by
  simp [ratRoundNat]

theorem blendChannel_mask_zero (c1 c2 : Nat) : blendChannel c1 c2 0 = c1 := by
  simp [blendChannel]

theorem append_ne_empty_right (s t : String) (h : t ≠ "") : s ++ t ≠ "" := by
  intro hc
  apply h
  have hl := congrArg String.length hc
  rw [String.length_append] at hl
  have h0 : t.length = 0 := by
    have : String.length "" = 0 := rfl
    omega
  have hd : t.data = [] := List.length_eq_zero.mp h0
  cases t
  simp_all

theorem append_ne_empty_left (s t : String) (h : s ≠ "") : s ++ t ≠ "" := by
  intro hc
  apply h
  have hl := congrArg String.length hc
  rw [String.length_append] at hl
  have h0 : s.length = 0 := by
    have : String.length "" = 0 := rfl
    omega
  have hd : s.data = [] := List.length_eq_zero.mp h0
  cases s
  simp_all

theorem placeholder_ne_empty : placeholderUrl ≠ "" := by decide

theorem ImageOps_fit_pos (img : PixelBuffer) (tw th : Nat)
    (hw : img.width ≠ 0) (hh : img.height ≠ 0) :
    ImageOps_fit img tw th = Except.ok (fitOut img tw th) := by
  simp [ImageOps_fit, hw, hh]

theorem ImageOps_fit_ok_elim {img : PixelBuffer} {tw th : Nat}
    {out : PixelBuffer} (h : ImageOps_fit img tw th = Except.ok out) :
    out = fitOut img tw th := by
  unfold ImageOps_fit at h
  split at h
  · exact Except.noConfusion h
  · injection h with h2
    exact h2.symm

theorem fitOut_mode (img : PixelBuffer) (tw th : Nat) :
    (fitOut img tw th).mode = img.mode := rfl

theorem fitOut_width (img : PixelBuffer) (tw th : Nat) :
    (fitOut img tw th).width = tw := rfl

theorem fitOut_height (img : PixelBuffer) (tw th : Nat) :
    (fitOut img tw th).height = th := rfl

theorem fitOut_pix (img : PixelBuffer) (tw th x y : Nat) :
    (fitOut img tw th).pix x y
      = img.pix
          (ratRoundNat
            (((x + (fitCropOrigin img.width img.height tw th).1 : Nat) : ℚ)
              / fitScale img.width img.height tw th))
          (ratRoundNat
            (((y + (fitCropOrigin img.width img.height tw th).2 : Nat) : ℚ)
              / fitScale img.width img.height tw th)) := rfl

theorem normalizeBuffer_of_skip (sp : NormSpec) (img : PixelBuffer)
    (hw : img.width ≠ 0) (hh : img.height ≠ 0)
    (hm : img.mode = ColorMode.L ∨ img.mode = ColorMode.RGB) :
    normalizeBuffer sp img = Except.ok (fitOut img sp.targetW sp.targetH) := by
  rcases hm with h | h <;>
    simp [normalizeBuffer, ImageOps_fit_pos img _ _ hw hh, fitOut_mode, h]

theorem normalizeBuffer_rgba_eq (sp : NormSpec) (img : PixelBuffer)
    (hw : img.width ≠ 0) (hh : img.height ≠ 0)
    (hm : img.mode = ColorMode.RGBA) :
    normalizeBuffer sp img
      = Except.ok (pasteWithMask
          (Image_new_RGB sp.targetW sp.targetH sp.bg)
          (fitOut img sp.targetW sp.targetH)
          (fun x y => ((fitOut img sp.targetW sp.targetH).pix x y).a)) := by
  simp [normalizeBuffer, ImageOps_fit_pos img _ _ hw hh, PixelBuffer.split,
    fitOut_mode, hm]

/-- C1: for every valid source of dimensions (w, h) with w, h > 0 and
target (tw, th) with tw, th > 0, the fit computes scale
`s = max(tw/w, th/h)`, resizes to `round(w*s) × round(h*s)`,
center-crops at centering fraction (0.5, 0.5), and outputs exactly
(tw, th); in particular a 4000×2000 source with target (500, 500)
has scale 1/4, is resized to 1000×500, and is cropped with x-offset
250. -/
theorem fit_cover_geometry (w h tw th : Nat) (hw : 0 < w) (hh : 0 < h)
    (_htw : 0 < tw) (_hth : 0 < th) (buf : PixelBuffer)
    (hbw : buf.width = w) (hbh : buf.height = h) :
    fitScale w h tw th = max ((tw : ℚ) / w) ((th : ℚ) / h)
    ∧ fitResizedDims w h tw th
        = (ratRoundNat ((w : ℚ) * fitScale w h tw th),
           ratRoundNat ((h : ℚ) * fitScale w h tw th))
    ∧ fitCropOrigin w h tw th
        = (((fitResizedDims w h tw th).1 - tw) / 2,
           ((fitResizedDims w h tw th).2 - th) / 2)
    ∧ (∃ out, ImageOps_fit buf tw th = Except.ok out
        ∧ out.width = tw ∧ out.height = th)
    ∧ fitScale 4000 2000 500 500 = 1 / 4
    ∧ fitResizedDims 4000 2000 500 500 = (1000, 500)
    ∧ fitCropOrigin 4000 2000 500 500 = (250, 0) := by
  have hs : fitScale 4000 2000 500 500 = 1 / 4 := by norm_num [fitScale]
  have hr : fitResizedDims 4000 2000 500 500 = (1000, 500) := by
    rw [fitResizedDims, hs]
    norm_num [ratRoundNat]
    decide
  have ho : fitCropOrigin 4000 2000 500 500 = (250, 0) := by
    rw [fitCropOrigin, hr]
    norm_num
  refine ⟨rfl, rfl, rfl,
    ⟨fitOut buf tw th, ImageOps_fit_pos buf tw th ?_ ?_, rfl, rfl⟩,
    hs, hr, ho⟩
  · rw [hbw]; exact hw.ne'
  · rw [hbh]; exact hh.ne'

/-- C1 witness: the theorem applied to a concrete 4000×2000 RGBA
source and target (500, 500). -/
theorem fit_cover_geometry_witness :
    ∃ out, ImageOps_fit rgbaSrc4000 500 500 = Except.ok out
      ∧ out.width = 500 ∧ out.height = 500 :=
  (fit_cover_geometry 4000 2000 500 500 (by norm_num) (by norm_num)
    (by norm_num) (by norm_num) rgbaSrc4000 rfl rfl).2.2.2.1

/-- C2 counterexample: an `LA`-mode source carries an alpha channel
and is neither grayscale-only `"L"` nor plain `"RGB"` by the code's
test, yet normalization does not composite it over the background: it
raises an `IndexError`, because `split()` of an `LA` buffer has only
two bands and the code indexes band 3. -/
theorem normalize_la_raises_index_error :
    laImg.mode ≠ ColorMode.L
    ∧ laImg.mode ≠ ColorMode.RGB
    ∧ normalizeBuffer spec500 laImg = Except.error ImgError.indexError := by
  exact ⟨by decide, by decide, rfl⟩

/-- C2 (amended): for every source image of mode RGBA — the one
alpha-bearing mode the code's `split()[3]` handles — normalization
composites the fitted image over an opaque canvas of
`background_color` using the image's own alpha channel as the blend
mask: the output carries no alpha channel (mode RGB), every fitted
pixel is a source pixel, and every output location whose fitted
source pixel is fully transparent equals `background_color`. -/
theorem normalize_flattens_rgba (sp : NormSpec) (img : PixelBuffer)
    (hm : img.mode = ColorMode.RGBA) (hw : img.width ≠ 0)
    (hh : img.height ≠ 0) :
    ∃ fitted out,
      ImageOps_fit img sp.targetW sp.targetH = Except.ok fitted
      ∧ normalizeBuffer sp img = Except.ok out
      ∧ out.mode = ColorMode.RGB
      ∧ (∀ x y, ∃ sx sy, fitted.pix x y = img.pix sx sy)
      ∧ (∀ x y, (fitted.pix x y).a = 0 →
          out.pix x y = { r := sp.bg.r, g := sp.bg.g, b := sp.bg.b, a := 255 }) := by
  refine ⟨fitOut img sp.targetW sp.targetH, _,
    ImageOps_fit_pos img _ _ hw hh,
    normalizeBuffer_rgba_eq sp img hw hh hm, rfl, ?_, ?_⟩
  · intro x y
    exact ⟨_, _, fitOut_pix img _ _ x y⟩
  · intro x y ha
    show (pasteWithMask _ _ _).pix x y = _
    simp [pasteWithMask, Image_new_RGB, ha, blendChannel_mask_zero]

/-- C2 witness: the amended theorem applied to a concrete fully
transparent 2×2 RGBA source under the deployed configuration. -/
theorem normalize_flattens_rgba_witness :
    ∃ fitted out,
      ImageOps_fit rgbaImg 500 500 = Except.ok fitted
      ∧ normalizeBuffer spec500 rgbaImg = Except.ok out
      ∧ out.mode = ColorMode.RGB
      ∧ (∀ x y, ∃ sx sy, fitted.pix x y = rgbaImg.pix sx sy)
      ∧ (∀ x y, (fitted.pix x y).a = 0 →
          out.pix x y = { r := 255, g := 255, b := 255, a := 255 }) :=
  normalize_flattens_rgba spec500 rgbaImg rfl (by decide) (by decide)

/-- C6 counterexample: a grayscale (`L`) source of nonzero size
normalizes to a buffer that is still grayscale, not RGB — the code
skips the RGB conversion for mode `"L"` and the grayscale buffer is
what gets encoded. -/
theorem normalize_gray_stays_gray :
    Except.map PixelBuffer.mode (normalizeBuffer spec500 grayImg)
      = Except.ok ColorMode.L
    ∧ ColorMode.L ≠ ColorMode.RGB := by
  exact ⟨rfl, by decide⟩

/-- C6 (amended): for every valid source of mode L, RGB, or RGBA,
normalization outputs a pixel buffer of exactly (tw, th); its mode is
RGB except for grayscale sources, which stay grayscale. -/
theorem normalize_output_size_mode (sp : NormSpec) (img : PixelBuffer)
    (hm : img.mode = ColorMode.L ∨ img.mode = ColorMode.RGB
      ∨ img.mode = ColorMode.RGBA)
    (hw : img.width ≠ 0) (hh : img.height ≠ 0) :
    ∃ out, normalizeBuffer sp img = Except.ok out
      ∧ out.width = sp.targetW ∧ out.height = sp.targetH
      ∧ out.mode
          = (if img.mode = ColorMode.L then ColorMode.L else ColorMode.RGB) := by
  rcases hm with h | h | h
  · exact ⟨_, normalizeBuffer_of_skip sp img hw hh (Or.inl h), rfl, rfl,
      by simp [fitOut_mode, h]⟩
  · exact ⟨_, normalizeBuffer_of_skip sp img hw hh (Or.inr h), rfl, rfl,
      by simp [fitOut_mode, h]⟩
  · exact ⟨_, normalizeBuffer_rgba_eq sp img hw hh h, rfl, rfl,
      by simp [pasteWithMask, Image_new_RGB, h]⟩

/-- C6 witness: the amended theorem applied to the concrete grayscale
source. -/
theorem normalize_output_size_mode_witness :
    ∃ out, normalizeBuffer spec500 grayImg = Except.ok out
      ∧ out.width = 500 ∧ out.height = 500
      ∧ out.mode
          = (if grayImg.mode = ColorMode.L then ColorMode.L else ColorMode.RGB) :=
  normalize_output_size_mode spec500 grayImg (Or.inl rfl) (by decide) (by decide)

/-- C7: for every RGB source already at the target size, normalization
is the identity on pixel content: scale 1, resized dimensions equal to
the source dimensions, zero crop offset, no alpha flattening, and every
output pixel equal to the corresponding source pixel. -/
theorem normalize_identity_when_already_target (sp : NormSpec)
    (img : PixelBuffer) (hm : img.mode = ColorMode.RGB)
    (hw : img.width = sp.targetW) (hh : img.height = sp.targetH)
    (htw : sp.targetW ≠ 0) (hth : sp.targetH ≠ 0) :
    fitScale img.width img.height sp.targetW sp.targetH = 1
    ∧ fitResizedDims img.width img.height sp.targetW sp.targetH
        = (img.width, img.height)
    ∧ fitCropOrigin img.width img.height sp.targetW sp.targetH = (0, 0)
    ∧ ∃ out, normalizeBuffer sp img = Except.ok out
        ∧ out.width = img.width ∧ out.height = img.height
        ∧ out.mode = ColorMode.RGB
        ∧ ∀ x y, out.pix x y = img.pix x y := by
  have hs : fitScale img.width img.height sp.targetW sp.targetH = 1 := by
    rw [fitScale, hw, hh,
      div_self (Nat.cast_ne_zero.mpr htw), div_self (Nat.cast_ne_zero.mpr hth)]
    exact max_self 1
  have hr : fitResizedDims img.width img.height sp.targetW sp.targetH
      = (img.width, img.height) := by
    rw [fitResizedDims, hs]
    simp [ratRoundNat]
  have ho : fitCropOrigin img.width img.height sp.targetW sp.targetH
      = (0, 0) := by
    rw [fitCropOrigin, hr]
    simp [hw, hh]
  have hwid : img.width ≠ 0 := by rw [hw]; exact htw
  have hhei : img.height ≠ 0 := by rw [hh]; exact hth
  refine ⟨hs, hr, ho, fitOut img sp.targetW sp.targetH,
    normalizeBuffer_of_skip sp img hwid hhei (Or.inr hm),
    hw.symm, hh.symm, hm, ?_⟩
  intro x y
  rw [fitOut_pix, ho, hs]
  simp [ratRoundNat_natCast]

/-- C7 witness: the theorem applied to a concrete 500×500 RGB source
under the deployed configuration. -/
theorem normalize_identity_when_already_target_witness :
    ∃ out, normalizeBuffer spec500 rgbImg500 = Except.ok out
      ∧ out.width = rgbImg500.width ∧ out.height = rgbImg500.height
      ∧ out.mode = ColorMode.RGB
      ∧ ∀ x y, out.pix x y = rgbImg500.pix x y :=
  (normalize_identity_when_already_target spec500 rgbImg500 rfl rfl rfl
    (by decide) (by decide)).2.2.2

/-- C8: for every source with zero width or zero height, normalization
fails with `InvalidImageError` before any resize is attempted (the fit
rejects the buffer up front, per spec §4.2). -/
theorem normalize_rejects_zero_dims (sp : NormSpec) (img : PixelBuffer)
    (h : img.width = 0 ∨ img.height = 0) :
    ImageOps_fit img sp.targetW sp.targetH
        = Except.error ImgError.invalidImage
    ∧ normalizeBuffer sp img = Except.error ImgError.invalidImage := by
  have hf : ImageOps_fit img sp.targetW sp.targetH
      = Except.error ImgError.invalidImage := by
    rcases h with h | h <;> simp [ImageOps_fit, h]
  refine ⟨hf, ?_⟩
  simp [normalizeBuffer, hf]

/-- C8 witness: the theorem applied to a concrete 0×5 source. -/
theorem normalize_rejects_zero_dims_witness :
    ImageOps_fit zeroImg 500 500 = Except.error ImgError.invalidImage
    ∧ normalizeBuffer spec500 zeroImg = Except.error ImgError.invalidImage :=
  normalize_rejects_zero_dims spec500 zeroImg (Or.inl rfl)

/-- C3: a cache entry whose recorded fingerprint differs from the
source's current fingerprint is never served: `derive` regenerates
from the current source, and the regenerated bytes are the JPEG
encoding of the fit-crop of the source's current content, with the
new entry tagged by the current fingerprint. -/
theorem stale_cache_never_served (tw th : Nat) (src : SourceAsset)
    (e : CacheEntry) (hstale : e.fingerprint ≠ src.fingerprint) :
    derive tw th src (some e) = deriveFresh tw th src
    ∧ ∀ b entry, deriveFresh tw th src = Except.ok (b, entry) →
        entry.fingerprint = src.fingerprint
        ∧ b = encodeJPEG (fitOut src.buffer tw th) 90 := by
  constructor
  · simp [derive, hstale]
  · intro b entry hok
    unfold deriveFresh at hok
    rcases hfit : ImageOps_fit src.buffer tw th with e0 | fitted
    · rw [hfit] at hok
      exact Except.noConfusion hok
    · rw [hfit] at hok
      injection hok with h2
      injection h2 with hb he
      subst hb
      subst he
      rw [ImageOps_fit_ok_elim hfit]
      exact ⟨rfl, rfl⟩

/-- C3 witness: the theorem applied to a concrete stale entry
(fingerprint 1) against a source now at fingerprint 2. -/
theorem stale_cache_never_served_witness :
    derive 150 150 srcAsset (some staleEntry) = deriveFresh 150 150 srcAsset :=
  (stale_cache_never_served 150 150 srcAsset staleEntry (by decide)).1

/-- C4: the URL properties are total and never empty: when the image
field is unset they return the placeholder, and when the backing
stored bytes do not exist they return the placeholder, for both the
image URL and the thumbnail URL. -/
theorem image_urls_never_fail (cfg : MediaConfig) (st : Storage)
    (p : Profile) :
    (profile_image_url cfg st p ≠ ""
      ∧ profile_image_thumb_url cfg st p ≠ "")
    ∧ (p.profile_image = none →
        profile_image_url cfg st p = placeholderUrl
        ∧ profile_image_thumb_url cfg st p = placeholderUrl)
    ∧ (∀ f, p.profile_image = some f →
        st.lookup (mediaPath cfg f.name) = false →
        profile_image_url cfg st p = placeholderUrl)
    ∧ (∀ f, p.profile_image = some f →
        st.lookup (mediaPath cfg (thumbName f)) = false →
        profile_image_thumb_url cfg st p = placeholderUrl) := by
  obtain ⟨oimg⟩ := p
  cases oimg with
  | none =>
      exact ⟨⟨placeholder_ne_empty, placeholder_ne_empty⟩,
        fun _ => ⟨rfl, rfl⟩,
        fun f hf => Option.noConfusion hf,
        fun f hf => Option.noConfusion hf⟩
  | some f =>
      refine ⟨⟨?_, ?_⟩, fun hy => Option.noConfusion hy, ?_, ?_⟩
      · by_cases hn : f.name = ""
        · simp [profile_image_url, hn, placeholder_ne_empty]
        · by_cases hl : st.lookup (mediaPath cfg f.name)
          · simpa [profile_image_url, hn, hl, fileUrl] using
              append_ne_empty_right cfg.mediaUrl f.name hn
          · simp [profile_image_url, hn, hl, placeholder_ne_empty]
      · by_cases hn : f.name = ""
        · simp [profile_image_thumb_url, hn, placeholder_ne_empty]
        · by_cases hl : st.lookup (mediaPath cfg (thumbName f))
          · simpa [profile_image_thumb_url, hn, hl, fileUrl] using
              append_ne_empty_right cfg.mediaUrl (thumbName f)
                (append_ne_empty_left "CACHE/images/" f.name (by decide))
          · simp [profile_image_thumb_url, hn, hl, placeholder_ne_empty]
      · intro f2 hf2 hlf
        injection hf2 with hf2e
        subst hf2e
        by_cases hn : f.name = "" <;>
          simp [profile_image_url, hn, hlf]
      · intro f2 hf2 hlf
        injection hf2 with hf2e
        subst hf2e
        by_cases hn : f.name = "" <;>
          simp [profile_image_thumb_url, hn, hlf]

/-- C4 witness: the theorem applied to a concrete profile and a
storage on which nothing exists. -/
theorem image_urls_never_fail_witness :
    profile_image_url cfg0 stAbsent pWithFile = placeholderUrl
    ∧ profile_image_thumb_url cfg0 stAbsent pWithFile = placeholderUrl :=
  ⟨(image_urls_never_fail cfg0 stAbsent pWithFile).2.2.1 testFile rfl rfl,
   (image_urls_never_fail cfg0 stAbsent pWithFile).2.2.2 testFile rfl rfl⟩

/-- C5: `save` is atomic with respect to the persisted row: if the
resize raises, the error propagates before `super().save` and the
previously persisted row is unchanged; if `save` succeeds, the
complete new row is persisted. -/
theorem profile_save_atomic (sp : NormSpec) (p : Profile)
    (db : Option Profile) :
    (∀ e, (Profile_save sp p db).1 = Except.error e →
        (Profile_save sp p db).2 = db)
    ∧ (∀ p2, (Profile_save sp p db).1 = Except.ok p2 →
        (Profile_save sp p db).2 = some p2) := by
  obtain ⟨oimg⟩ := p
  cases oimg with
  | none =>
      exact ⟨fun e he => Except.noConfusion he,
        fun p2 hp2 => by injection hp2 with h2; rw [← h2]; rfl⟩
  | some f =>
      by_cases hn : f.name != ""
      · rcases hr : resize_profile_image sp f with e0 | f2
        · constructor
          · intro e he
            simp [Profile_save, hn, hr]
          · intro p2 hp2
            simp [Profile_save, hn, hr] at hp2
        · constructor
          · intro e he
            simp [Profile_save, hn, hr] at he
          · intro p2 hp2
            simp [Profile_save, hn, hr] at hp2
            rw [← hp2]
            simp [Profile_save, hn, hr]
      · constructor
        · intro e he
          simp [Profile_save, hn] at he
        · intro p2 hp2
          simp [Profile_save, hn] at hp2
          rw [← hp2]
          simp [Profile_save, hn]

/-- C5 witness: the theorem applied to a profile whose image is an
`LA`-mode file (on which the resize raises an `IndexError`), saved
over a previously persisted row; the row is unchanged. -/
theorem profile_save_atomic_witness :
    (Profile_save spec500 badProfile (some pWithFile)).2 = some pWithFile :=
  (profile_save_atomic spec500 badProfile (some pWithFile)).1
    ImgError.indexError rfl

/-- C9: the resize preserves the asset's identity token: the replaced
upload keeps the original file name; the content becomes the
normalized buffer, the content type becomes `"image/jpeg"`, and the
size metadata is replaced. -/
theorem resize_keeps_identity_token (sp : NormSpec) (f f2 : ImageFile)
    (h : resize_profile_image sp f = Except.ok f2) :
    f2.name = f.name
    ∧ f2.contentType = "image/jpeg"
    ∧ ∃ out, normalizeBuffer sp f.content = Except.ok out
        ∧ f2.content = out ∧ f2.size = Image_tell out := by
  unfold resize_profile_image at h
  rcases hn : normalizeBuffer sp f.content with e0 | out
  · rw [hn] at h
    exact Except.noConfusion h
  · rw [hn] at h
    injection h with h2
    subst h2
    exact ⟨rfl, rfl, out, rfl, rfl, rfl⟩

/-- C9 witness: the theorem applied to a concrete upload; the
resized file keeps its name and is re-typed as JPEG. -/
theorem resize_keeps_identity_token_witness :
    ∃ f2, resize_profile_image spec500 testFile = Except.ok f2
      ∧ f2.name = testFile.name ∧ f2.contentType = "image/jpeg" := by
  refine ⟨_, rfl, ?_, ?_⟩
  · exact (resize_keeps_identity_token spec500 testFile _ rfl).1
  · exact (resize_keeps_identity_token spec500 testFile _ rfl).2.1

/-- C10: `save` with a truthy `profile_image` unconditionally runs the
full resize pipeline on the current image before persisting — the
persisted image is exactly the pipeline's output on the current file
(and a pipeline failure propagates), with no skip for
already-normalized assets. -/
theorem save_always_renormalizes (sp : NormSpec) (p : Profile)
    (db : Option Profile) (f : ImageFile)
    (hf : p.profile_image = some f) (hn : f.name ≠ "") :
    (∀ f2, resize_profile_image sp f = Except.ok f2 →
        Profile_save sp p db
          = (Except.ok { profile_image := some f2 },
             some { profile_image := some f2 }))
    ∧ (∀ e, resize_profile_image sp f = Except.error e →
        Profile_save sp p db = (Except.error e, db)) := by
  have hb : (f.name != "") = true := by simpa using hn
  constructor
  · intro f2 h2
    simp [Profile_save, hf, hb, h2]
  · intro e he
    simp [Profile_save, hf, hb, he]

/-- C10 witness: a file already normalized by a previous resize is
renormalized again on the next save. -/
theorem save_always_renormalizes_witness :
    ∃ f1 f2,
      resize_profile_image spec500 testFile = Except.ok f1
      ∧ resize_profile_image spec500 f1 = Except.ok f2
      ∧ Profile_save spec500 { profile_image := some f1 } none
          = (Except.ok { profile_image := some f2 },
             some { profile_image := some f2 }) := by
  refine ⟨_, _, rfl, rfl, ?_⟩
  exact (save_always_renormalizes spec500 _ none _ rfl (by decide)).1 _ rfl

end CiviWiki
